/-
Verification development for the FakeNewsSniper claim-verification engine.

This file gives a shallow embedding, in Lean 4, of the decision logic of the
repository (src/lib/verification-service.ts, src/lib/source-reliability.ts and
the evidence gatherer), and proves or refutes the testable properties stated
in the specification.

Modelling conventions:
- JavaScript numbers are modelled as rationals (ℚ).  JavaScript division by
  zero yields NaN/Infinity; the embedding uses `jsDiv`, which returns 0 on a
  zero denominator, and every theorem whose truth could depend on a division
  by zero carries hypotheses ruling that case out (or the divided value flows
  only into fields the theorem does not mention).
- JavaScript strings are Lean `String`s; `toLowerCase`/`toUpperCase` are
  modelled for the ASCII range (every string scrutinised by the code is
  ASCII).  `String.prototype.includes` is substring containment.
- `Date` values never influence any decision modelled here; timestamp fields
  are dropped from the embedded records.
- Optional/undefined boolean metadata flags are modelled as `Bool` with
  `false` for `undefined` (JavaScript truthiness).
- JavaScript regular expressions are embedded as terms of a small regex
  datatype `Rgx` with a Brzozowski-derivative matcher; each embedded pattern
  is transcribed token by token from the corresponding regex literal,
  including the literal-backslash artefacts present in the source
  (`/born\\s+.../` matches a literal backslash followed by letters `s`, not
  whitespace).
-/
import Mathlib

namespace FNS

/-- Verdicts of the engine.  The defining file (verification-types.ts) is not
part of the provided sources; the four values are taken from the spec
(Verified / False / Disputed / Unverified) and from every use site
(e.g. the status map in the migration layer). -/
inductive VStatus where
  | VERIFIED
  | FALSE
  | DISPUTED
  | UNVERIFIED
deriving DecidableEq, Repr

/-- SourceType enum from source-reliability.ts. -/
inductive SourceType where
  | NEWS
  | ACADEMIC
  | GOVERNMENT
  | REFERENCE
  | OTHER
deriving DecidableEq, Repr

/-- ReliabilityLevel enum from source-reliability.ts. -/
inductive ReliabilityLevel where
  | PRIMARY
  | VERIFIED
  | MODERATE
  | ESTABLISHED
  | CORROBORATED
  | UNVERIFIED
deriving DecidableEq, Repr

/-- Source.metadata from source-reliability.ts (optional booleans modelled
with default `false`). -/
structure SourceMetadata where
  country : Option String := none
  language : Option String := none
  isGovernment : Bool := false
  isAcademic : Bool := false
  isFactChecker : Bool := false
  isNews : Bool := false
  isReference : Bool := false
  isAI : Bool := false
deriving DecidableEq, Repr

/-- Source record from source-reliability.ts (the `lastVerified` Date is
dropped: no embedded decision reads it). -/
structure Source where
  id : String
  name : String
  type : SourceType
  reliability : ReliabilityLevel
  url : String
  verificationStatus : VStatus
  categories : List String
  metadata : SourceMetadata
deriving DecidableEq, Repr

/-- Evidence.metadata from types.ts, plus the `hasConflictingRatings` flag the
fact-check gatherer writes into it.  `hasConflictingRatings` is kept as an
`Option Bool` because the code guards it with a `typeof === boolean` check. -/
structure EvidenceMetadata where
  isPrimarySource : Bool := false
  isDirectStatement : Bool := false
  isOfficialDocument : Bool := false
  isResearch : Bool := false
  isNews : Bool := false
  isBiographical : Bool := false
  isReference : Bool := false
  isAI : Bool := false
  isContradictory : Bool := false
  originalClaim : Option String := none
  similarityScore : Option ℚ := none
  hasConflictingRatings : Option Bool := none
deriving DecidableEq, Repr

/-- Evidence record from types.ts (timestamp Date dropped). -/
structure Evidence where
  id : String
  content : String
  source : Source
  url : String
  confidence : ℚ
  categories : List String
  metadata : EvidenceMetadata
deriving DecidableEq, Repr

/-- EvidenceResult from types.ts (timestamp dropped). -/
structure EvidenceResult where
  evidence : List Evidence
  totalSources : ℕ
  reliabilityScore : ℚ
deriving DecidableEq, Repr

/-- VerificationResult.metadata from verification-pipeline. -/
structure VMetadata where
  isTemporalClaim : Bool
  isFactualClaim : Bool
  isPredictiveClaim : Bool
  categories : List String
  contradictionRatio : ℚ
  evidenceScores : List ℚ
  error : Option String := none
deriving DecidableEq, Repr

/-- VerificationResult minus explanation and timestamp: the return type of
calculateVerificationResult (`Omit<VerificationResult,(explanation|timestamp)>`). -/
structure VCore where
  claim : String
  status : VStatus
  confidence : ℚ
  evidence : List Evidence
  sources : List Source
  metadata : VMetadata
deriving DecidableEq, Repr

/-- Full VerificationResult (timestamp Date dropped). -/
structure VResult where
  claim : String
  status : VStatus
  confidence : ℚ
  evidence : List Evidence
  sources : List Source
  explanation : String
  metadata : VMetadata
deriving DecidableEq, Repr

/-! ## String utilities (ASCII models of the JavaScript string operations) -/

/-- ASCII lower-casing of one character (model of String.prototype.toLowerCase
on the ASCII range). -/
def lowerChar (c : Char) : Char :=
  if 'A' ≤ c ∧ c ≤ 'Z' then Char.ofNat (c.toNat + 32) else c

/-- ASCII upper-casing of one character. -/
def upperChar (c : Char) : Char :=
  if 'a' ≤ c ∧ c ≤ 'z' then Char.ofNat (c.toNat - 32) else c

/-- Model of `s.toLowerCase()`. -/
def lowerStr (s : String) : String := ⟨s.data.map lowerChar⟩

/-- Model of `s.toUpperCase()`. -/
def upperStr (s : String) : String := ⟨s.data.map upperChar⟩

/-- Boolean contiguous-sublist test. -/
def infixOfB (needle : List Char) : List Char → Bool
  | [] => needle.isEmpty
  | h :: t => needle.isPrefixOf (h :: t) || infixOfB needle t

/-- Model of `hay.includes(needle)` (substring containment; true for the
empty needle, as in JavaScript). -/
def strContains (hay needle : String) : Bool := infixOfB needle.data hay.data

/-- Whitespace test for the `\s` regex class (ASCII range). -/
def isWs (c : Char) : Bool :=
  c = ' ' ∨ c = '\t' ∨ c = '\n' ∨ c = '\r' ∨ c = '\x0b' ∨ c = '\x0c'

/-- Word-character test for the `\w` regex class: `[A-Za-z0-9_]`. -/
def isWordChar (c : Char) : Bool :=
  ('a' ≤ c ∧ c ≤ 'z') ∨ ('A' ≤ c ∧ c ≤ 'Z') ∨ ('0' ≤ c ∧ c ≤ '9') ∨ c = '_'

/-- ASCII letter test. -/
def isLetterChar (c : Char) : Bool :=
  ('a' ≤ c ∧ c ≤ 'z') ∨ ('A' ≤ c ∧ c ≤ 'Z')

/-- ASCII digit test for the `\d` regex class. -/
def isDigitChar (c : Char) : Bool := '0' ≤ c ∧ c ≤ '9'

/-- Dropping a prefix never lengthens a list. -/
theorem dropWhile_len_le (p : Char → Bool) (l : List Char) :
    (l.dropWhile p).length ≤ l.length := by
  induction l with
  | nil => simp [List.dropWhile]
  | cons a t ih =>
      by_cases h : p a
      · simp [List.dropWhile, h]; omega
      · simp [List.dropWhile, h]

/-- Model of `s.split(/\s+/)`: fields between maximal whitespace runs.  As in
JavaScript, a leading or trailing separator contributes an empty field and the
empty string splits to `[""]`. -/
def wsSplitGo (cs : List Char) : List String :=
  let field := cs.takeWhile (fun c => !(isWs c))
  let rest := cs.dropWhile (fun c => !(isWs c))
  match h : rest with
  | [] => [String.mk field]
  | _ :: rs =>
      -- the head of `rest` is the first whitespace character of the
      -- separator run; the rest of the run is removed with dropWhile
      String.mk field :: wsSplitGo (rs.dropWhile isWs)
termination_by cs.length
decreasing_by
  have h1 : rest.length ≤ cs.length := dropWhile_len_le (fun c => !(isWs c)) cs
  rw [h] at h1
  have h2 : (rs.dropWhile isWs).length ≤ rs.length := dropWhile_len_le isWs rs
  simp at h1
  omega

/-- Model of `s.split(/\s+/)`. -/
def splitWs (s : String) : List String := wsSplitGo s.data

/-- JavaScript division: the embedding returns 0 where JavaScript returns
NaN or Infinity (denominator 0).  Theorems avoid relying on this case. -/
def jsDiv (a b : ℚ) : ℚ := if b = 0 then 0 else a / b

/-- Model of `a || b` for strings (empty string is falsy). -/
def strOr (a b : String) : String := if a = "" then b else a

/-- Test for a whole-word occurrence of `w` (model of
`new RegExp("\\b" + w + "\\b").test(s)` for a `w` that starts and ends with a
word character, as every word tested by the code does): an occurrence of `w`
whose neighbouring characters are absent or not word characters. -/
def containsWordAux (w : List Char) (prev : Option Char) : List Char → Bool
  | [] => false
  | c :: cs =>
      (((match prev with | none => true | some p => ¬ isWordChar p) &&
        w.isPrefixOf (c :: cs)) &&
        (match ((c :: cs).drop w.length).head? with
         | none => true
         | some nxt => ¬ isWordChar nxt)) ||
      containsWordAux w (some c) cs

/-- Whole-word containment (see `containsWordAux`). -/
def containsWord (w s : String) : Bool := containsWordAux w.data none s.data

/-! ## A small regular-expression engine

The JavaScript regex literals of the source are transcribed into this syntax
token by token.  Membership is decided with Brzozowski derivatives; only
whether a match exists somewhere in the subject string is ever needed (the
semantics of `RegExp.prototype.test` / `String.prototype.match !== null`),
except for the person-name extraction, which is implemented separately. -/

inductive Rgx where
  | emp : Rgx
  | eps : Rgx
  | cls : (Char → Bool) → Rgx
  | alt : Rgx → Rgx → Rgx
  | cat : Rgx → Rgx → Rgx
  | star : Rgx → Rgx

/-- Does the language of `r` contain the empty string. -/
def nullable : Rgx → Bool
  | .emp => false
  | .eps => true
  | .cls _ => false
  | .alt a b => nullable a || nullable b
  | .cat a b => nullable a && nullable b
  | .star _ => true

/-- Smart alternation (collapses the empty language). -/
def altS : Rgx → Rgx → Rgx
  | .emp, r => r
  | r, .emp => r
  | a, b => .alt a b

/-- Smart concatenation (collapses the empty language and ε). -/
def catS : Rgx → Rgx → Rgx
  | .emp, _ => .emp
  | _, .emp => .emp
  | .eps, r => r
  | r, .eps => r
  | a, b => .cat a b

/-- Brzozowski derivative with respect to one character. -/
def rgxDeriv (r : Rgx) (c : Char) : Rgx :=
  match r with
  | .emp => .emp
  | .eps => .emp
  | .cls p => if p c then .eps else .emp
  | .alt a b => altS (rgxDeriv a c) (rgxDeriv b c)
  | .cat a b =>
      if nullable a then altS (catS (rgxDeriv a c) b) (rgxDeriv b c)
      else catS (rgxDeriv a c) b
  | .star a => catS (rgxDeriv a c) (.star a)

/-- Whole-string match. -/
def rgxFull (r : Rgx) (cs : List Char) : Bool := nullable (cs.foldl rgxDeriv r)

/-- Character class matching any character (used to turn a search into a
whole-string match). -/
def anyCh : Rgx := .cls (fun _ => true)

/-- Model of `regex.test(s)` / `s.match(regex) !== null`: a match of `r`
exists somewhere in `s`. -/
def rgxSearch (r : Rgx) (s : String) : Bool :=
  rgxFull (.cat (.star anyCh) (.cat r (.star anyCh))) s.data

/-- Single literal character. -/
def chr (c : Char) : Rgx := .cls (fun x => x = c)

/-- Literal string. -/
def lit (s : String) : Rgx := s.data.foldr (fun c r => .cat (chr c) r) .eps

/-- The JavaScript `.` class: any character except a line terminator. -/
def dotNN : Rgx := .cls (fun c => ¬ (c = '\n' ∨ c = '\r'))

/-- The `\s` class. -/
def wsR : Rgx := .cls isWs

/-- The `\d` class. -/
def digitR : Rgx := .cls isDigitChar

/-- The `\w` class. -/
def wordR : Rgx := .cls isWordChar

/-- One-or-more repetition (`+`). -/
def rplus (r : Rgx) : Rgx := .cat r (.star r)

/-- Zero-or-one repetition (`?`). -/
def ropt (r : Rgx) : Rgx := .alt .eps r

/-- Exactly `n` repetitions (`{n}`). -/
def repN (r : Rgx) : ℕ → Rgx
  | 0 => .eps
  | n + 1 => .cat r (repN r n)

/-- Between `lo` and `hi` repetitions (`{lo,hi}`). -/
def repRange (r : Rgx) (lo hi : ℕ) : Rgx := .cat (repN r lo) (repN (ropt r) (hi - lo))

/-- Alternation of a list (`(?:a|b|…)`). -/
def altL : List Rgx → Rgx
  | [] => .emp
  | [r] => r
  | r :: rest => .alt r (altL rest)

/-! ## Source Registry: SourceReliabilityManager.getSourceReliabilityScore
(src/lib/source-reliability.ts, lines 248–292) -/

/-- Base score table from getSourceReliabilityScore. -/
def baseScore : ReliabilityLevel → ℚ
  | .PRIMARY => 1.0
  | .VERIFIED => 0.9
  | .MODERATE => 0.75
  | .ESTABLISHED => 0.8
  | .CORROBORATED => 0.6
  | .UNVERIFIED => 0.3

/-- The allow-list test for well-known fact-checking brands. -/
def isKnownFactCheckBrand (s : Source) : Bool :=
  strContains (lowerStr s.name) "snopes" ||
  strContains (lowerStr s.name) "factcheck.org" ||
  strContains (lowerStr s.name) "reuters fact check"

/-- Model of SourceReliabilityManager.getSourceReliabilityScore: base score by
reliability level, sequential multiplicative adjustments, capped at 1.0. -/
def getSourceReliabilityScore (s : Source) : ℚ :=
  let score := baseScore s.reliability
  let score :=
    if s.verificationStatus = .VERIFIED then score * 1.1
    else if s.verificationStatus = .UNVERIFIED then score * 0.5
    else score
  let score := if s.metadata.isGovernment then score * 1.2 else score
  let score :=
    if s.metadata.isFactChecker then
      let score := score * 1.3
      if isKnownFactCheckBrand s then score * 1.1 else score
    else score
  let score := if s.metadata.isAcademic then score * 1.1 else score
  let score := if s.metadata.isNews ∧ s.metadata.isReference then score * 1.15 else score
  min 1.0 score

/-- Verification-status factor of the reliability score. -/
def statusFactor (s : Source) : ℚ :=
  if s.verificationStatus = .VERIFIED then 1.1
  else if s.verificationStatus = .UNVERIFIED then 0.5
  else 1

/-- Government factor of the reliability score. -/
def govFactor (s : Source) : ℚ := if s.metadata.isGovernment then 1.2 else 1

/-- Fact-checker factor of the reliability score. -/
def fcFactor (s : Source) : ℚ :=
  if s.metadata.isFactChecker then
    (if isKnownFactCheckBrand s then 1.3 * 1.1 else 1.3)
  else 1

/-- Academic factor of the reliability score. -/
def acadFactor (s : Source) : ℚ := if s.metadata.isAcademic then 1.1 else 1

/-- News-with-reference factor of the reliability score. -/
def newsRefFactor (s : Source) : ℚ :=
  if s.metadata.isNews ∧ s.metadata.isReference then 1.15 else 1

/-- Status adjustment as a factor. -/
theorem step_status (s : Source) (x : ℚ) :
    (if s.verificationStatus = .VERIFIED then x * 1.1
     else if s.verificationStatus = .UNVERIFIED then x * 0.5 else x) = x * statusFactor s := by
  unfold statusFactor; split_ifs <;> ring

theorem step_gov (s : Source) (x : ℚ) :
    (if s.metadata.isGovernment then x * 1.2 else x) = x * govFactor s := by
  unfold govFactor; split_ifs <;> ring

theorem step_fc (s : Source) (x : ℚ) :
    (if s.metadata.isFactChecker then
      (if isKnownFactCheckBrand s then x * 1.3 * 1.1 else x * 1.3) else x) = x * fcFactor s := by
  unfold fcFactor; split_ifs <;> ring

theorem step_acad (s : Source) (x : ℚ) :
    (if s.metadata.isAcademic then x * 1.1 else x) = x * acadFactor s := by
  unfold acadFactor; split_ifs <;> ring

theorem step_news (s : Source) (x : ℚ) :
    (if s.metadata.isNews ∧ s.metadata.isReference then x * 1.15 else x) = x * newsRefFactor s := by
  unfold newsRefFactor; split_ifs <;> ring

/-- The reliability score is the capped product of the base score with the
five adjustment factors. -/
theorem relScore_eq_product (s : Source) :
    getSourceReliabilityScore s =
      min 1 (baseScore s.reliability * statusFactor s * govFactor s * fcFactor s *
             acadFactor s * newsRefFactor s) := by
  unfold getSourceReliabilityScore
  simp only [step_status, step_gov, step_fc, step_acad, step_news]
  norm_num

theorem baseScore_pos (rl : ReliabilityLevel) : 0 < baseScore rl := by
  cases rl <;> norm_num [baseScore]

theorem statusFactor_pos (s : Source) : 0 < statusFactor s := by
  unfold statusFactor; split_ifs <;> norm_num

theorem govFactor_pos (s : Source) : 0 < govFactor s := by
  unfold govFactor; split_ifs <;> norm_num

theorem fcFactor_pos (s : Source) : 0 < fcFactor s := by
  unfold fcFactor; split_ifs <;> norm_num

theorem acadFactor_pos (s : Source) : 0 < acadFactor s := by
  unfold acadFactor; split_ifs <;> norm_num

theorem newsRefFactor_pos (s : Source) : 0 < newsRefFactor s := by
  unfold newsRefFactor; split_ifs <;> norm_num

/-- The source obtained by switching on the isGovernment flag and changing
nothing else. -/
def withGovernment (s : Source) : Source :=
  { s with metadata := { s.metadata with isGovernment := true } }

theorem relScore_core_pos (s : Source) :
    0 < baseScore s.reliability * statusFactor s * govFactor s * fcFactor s *
        acadFactor s * newsRefFactor s :=
  mul_pos (mul_pos (mul_pos (mul_pos (mul_pos (baseScore_pos _) (statusFactor_pos s))
    (govFactor_pos s)) (fcFactor_pos s)) (acadFactor_pos s)) (newsRefFactor_pos s)

/-- C5.  reliabilityScore(s) lies in [0,1] for every source, and flipping on
the isGovernment flag (all other fields identical) never decreases the
score. -/
theorem relScore_bounds_and_gov_monotone (s : Source) :
    (0 ≤ getSourceReliabilityScore s ∧ getSourceReliabilityScore s ≤ 1) ∧
      getSourceReliabilityScore s ≤ getSourceReliabilityScore (withGovernment s) := by
  have hpos := relScore_core_pos s
  refine ⟨⟨?_, ?_⟩, ?_⟩
  · rw [relScore_eq_product]
    exact le_min (by norm_num) (le_of_lt hpos)
  · rw [relScore_eq_product]
    exact min_le_left _ _
  · rw [relScore_eq_product, relScore_eq_product]
    have hbase : (withGovernment s).reliability = s.reliability := rfl
    have hst : statusFactor (withGovernment s) = statusFactor s := rfl
    have hfc : fcFactor (withGovernment s) = fcFactor s := rfl
    have hac : acadFactor (withGovernment s) = acadFactor s := rfl
    have hnw : newsRefFactor (withGovernment s) = newsRefFactor s := rfl
    have hgovNew : govFactor (withGovernment s) = 1.2 := by
      unfold govFactor withGovernment; simp
    have hgovLe : govFactor s ≤ 1.2 := by
      unfold govFactor; split_ifs <;> norm_num
    rw [hbase, hst, hfc, hac, hnw, hgovNew]
    refine min_le_min le_rfl ?_
    have hC : 0 ≤ baseScore s.reliability * statusFactor s * fcFactor s *
        acadFactor s * newsRefFactor s :=
      le_of_lt (mul_pos (mul_pos (mul_pos (mul_pos (baseScore_pos _)
        (statusFactor_pos s)) (fcFactor_pos s)) (acadFactor_pos s)) (newsRefFactor_pos s))
    calc baseScore s.reliability * statusFactor s * govFactor s * fcFactor s *
          acadFactor s * newsRefFactor s
        = govFactor s * (baseScore s.reliability * statusFactor s * fcFactor s *
          acadFactor s * newsRefFactor s) := by ring
      _ ≤ 1.2 * (baseScore s.reliability * statusFactor s * fcFactor s *
          acadFactor s * newsRefFactor s) := mul_le_mul_of_nonneg_right hgovLe hC
      _ = baseScore s.reliability * statusFactor s * 1.2 * fcFactor s *
          acadFactor s * newsRefFactor s := by ring

/-! ## Claim Classifier (VerificationPipeline.analyzeClaim and helpers,
src/lib/verification-service.ts lines 549–698)

The biographical regex literals in the source are written with doubled
backslashes inside regex literal syntax (`/born\\s+…/`), so `\\s+` matches a
literal backslash character followed by one or more letters `s` — not
whitespace.  The transcriptions below preserve these artefacts exactly. -/

/-- Sequence of regexes. -/
def catL : List Rgx → Rgx
  | [] => .eps
  | r :: rest => .cat r (catL rest)

/-- The `\\s+`-style artefact: a literal backslash then one or more copies of
the letter `c`. -/
def bsPlus (c : Char) : Rgx := .cat (chr '\\') (rplus (chr c))

/-- The `\\s*`-style artefact: a literal backslash then zero or more copies of
the letter `c`. -/
def bsStar (c : Char) : Rgx := .cat (chr '\\') (.star (chr c))

/-- The `\\d{lo,hi}`-style artefact: a literal backslash then `lo`–`hi` copies
of the letter `c`. -/
def bsRange (c : Char) (lo hi : ℕ) : Rgx := .cat (chr '\\') (repRange (chr c) lo hi)

/-- The `\\d{n}`-style artefact: a literal backslash then exactly `n` copies
of the letter `c`. -/
def bsRepN (c : Char) (n : ℕ) : Rgx := .cat (chr '\\') (repN (chr c) n)

/-- The profession alternation used by several biographical patterns. -/
def professionAlt : Rgx :=
  altL (["actor", "actress", "musician", "singer", "writer", "director",
         "producer"].map lit)

/-- Transcription of `/born\\s+\\w+\\s+\\d{1,2},\\s+\\d{4}/i`. -/
def bioPatBorn : Rgx :=
  catL [lit "born", bsPlus 's', bsPlus 'w', bsPlus 's', bsRange 'd' 1 2,
        chr ',', bsPlus 's', bsRepN 'd' 4]

/-- Transcription of `/is\\s+an?\\s+\\w+\\s+(?:actor|actress|musician|singer|writer|director|producer)/i`. -/
def bioPatProfession : Rgx :=
  catL [lit "is", bsPlus 's', lit "a", ropt (chr 'n'), bsPlus 's', bsPlus 'w',
        bsPlus 's', professionAlt]

/-- Transcription of `/from\\s+\\w+(?:\\s+\\w+)*/i`. -/
def bioPatFrom : Rgx :=
  catL [lit "from", bsPlus 's', bsPlus 'w', .star (.cat (bsPlus 's') (bsPlus 'w'))]

/-- Transcription of `/\\d{4}\\s*-\\s*present/i`. -/
def bioPatCareerSpan : Rgx :=
  catL [bsRepN 'd' 4, bsStar 's', chr '-', bsStar 's', lit "present"]

/-- Transcription of `/(?:actor|…)\\s+(?:known|famous|renowned|celebrated)/i`. -/
def bioPatFame : Rgx :=
  catL [professionAlt, bsPlus 's',
        altL (["known", "famous", "renowned", "celebrated"].map lit)]

/-- Transcription of `/(?:starred|appeared|performed|released)\\s+in/i`. -/
def bioPatStarred : Rgx :=
  catL [altL (["starred", "appeared", "performed", "released"].map lit),
        bsPlus 's', lit "in"]

/-- Transcription of `/is\\s+an?\\s+(?:American|…)\\s+(?:actor|…)/i` (the
nationality literals are lower-cased because matching is done on the
lower-cased subject, modelling the `i` flag). -/
def bioPatNationality : Rgx :=
  catL [lit "is", bsPlus 's', lit "a", ropt (chr 'n'), bsPlus 's',
        altL (["american", "british", "canadian", "australian", "french",
               "german", "italian", "spanish", "japanese", "chinese",
               "indian", "russian"].map lit),
        bsPlus 's', professionAlt]

/-- The six patterns of isBiographicalClaim, in source order. -/
def biographicalPatterns : List Rgx :=
  [bioPatBorn, bioPatProfession, bioPatFrom, bioPatCareerSpan, bioPatFame,
   bioPatStarred]

/-- Model of VerificationPipeline.isBiographicalClaim (lines 626–637): a
case-insensitive search of the six biographical patterns. -/
def isBiographicalClaim (claim : String) : Bool :=
  biographicalPatterns.any (fun p => rgxSearch p (lowerStr claim))

/-- The seven biographical-context guard patterns of isPredictiveClaim
(lines 610–618), in source order. -/
def biographicalContexts : List Rgx :=
  [bioPatProfession, bioPatBorn, bioPatFrom, bioPatCareerSpan, bioPatFame,
   bioPatStarred, bioPatNationality]

/-- Model of VerificationPipeline.isPredictiveClaim (lines 590–624). -/
def isPredictiveClaim (claim : String) : Bool :=
  if isBiographicalClaim claim then false
  else
    let predictiveIndicators :=
      ["will", "going to", "plan to", "intend to", "expected to", "likely to",
       "may", "might", "could"]
    let hasPredictiveIndicator :=
      predictiveIndicators.any (fun i => containsWord i (lowerStr claim))
    if hasPredictiveIndicator then
      !(biographicalContexts.any (fun p => rgxSearch p (lowerStr claim)))
    else false

/-- Model of VerificationPipeline.isTemporalClaim (lines 572–579). -/
def isTemporalClaim (claim : String) : Bool :=
  ["is", "was", "will be", "going to", "current", "former", "previous", "now",
   "then", "future", "past"].any (fun i => strContains claim i)

/-- Model of VerificationPipeline.isFactualClaim (lines 581–588). -/
def isFactualClaim (claim : String) : Bool :=
  ["is", "was", "has", "had", "contains", "includes", "consists of",
   "located in", "based in", "from"].any (fun i => strContains claim i)

/-- Model of VerificationPipeline.extractKeyTerms (lines 639–645). -/
def extractKeyTerms (claim : String) : List String :=
  let commonWords := ["is", "a", "an", "the", "and", "or", "but", "in", "on",
                      "at", "to", "for", "of", "with", "by"]
  (splitWs (lowerStr claim)).filter
    (fun term => !(commonWords.contains term) && term.length > 2)

/-- Insertion into a JavaScript Set: appends unless present. -/
def addCat (l : List String) (c : String) : List String :=
  if l.contains c then l else l ++ [c]

/-- Model of VerificationPipeline.extractCategories (lines 667–698); the
returned order is the Set insertion order. -/
def extractCategories (claim : String) : List String :=
  let lc := lowerStr claim
  let cats : List String := []
  let cats := if isBiographicalClaim lc then addCat (addCat cats "biography") "person" else cats
  let cats := if strContains lc "actor" || strContains lc "actress" then
                addCat (addCat cats "entertainment") "film" else cats
  let cats := if strContains lc "musician" || strContains lc "singer" then
                addCat (addCat cats "music") "entertainment" else cats
  let cats := if strContains lc "president" then
                addCat (addCat cats "politics") "government" else cats
  let cats := if strContains lc "research" || strContains lc "study" then
                addCat (addCat cats "research") "academic" else cats
  cats

/-- Model of VerificationPipeline.analyzeClaim (lines 549–570). -/
def analyzeClaim (claim : String) : VMetadata :=
  let lowerClaim := lowerStr claim
  let isBio := isBiographicalClaim lowerClaim
  { isTemporalClaim := isTemporalClaim lowerClaim
    isFactualClaim := isFactualClaim lowerClaim || isBio
    isPredictiveClaim := isPredictiveClaim lowerClaim
    categories := extractCategories lowerClaim
    contradictionRatio := 0
    evidenceScores := [] }

/-! ## Rating-token scanners

Models of the `String.prototype.match` calls that pull a rating token out of
fact-check evidence text.  A JavaScript regex match scans every start
position left to right, so a failed occurrence of the key is skipped and
later occurrences are still found. -/

/-- Model of `content.match(/Key:\s*(\w+)/)?.[1]`: the first occurrence of
`key` that is followed (after optional whitespace) by at least one word
character yields that maximal word-character run. -/
def matchKeyWord (key : List Char) : List Char → Option (List Char)
  | [] => none
  | c :: cs =>
      if key.isPrefixOf (c :: cs) then
        let afterWs := ((c :: cs).drop key.length).dropWhile isWs
        let word := afterWs.takeWhile isWordChar
        if word.isEmpty then matchKeyWord key cs else some word
      else matchKeyWord key cs

/-- Model of `content.match(/Rating:\s*(\w+)/)?.[1]?.toUpperCase()` from
calculateVerificationResult (line 882); the key is matched case-sensitively
(the regex has no `i` flag). -/
def extractRatingWord (content : String) : Option String :=
  (matchKeyWord "Rating:".data content.data).map (fun w => upperStr ⟨w⟩)

/-- Model of `content.match(/Rating:\s*(TRUE|FALSE|DISPUTED)/i)?.[1]?.toUpperCase()`
from the fact-check tier of verifyClaim (line 356); the subject is passed
already lower-cased (modelling the `i` flag). -/
def matchRating3 : List Char → Option String
  | [] => none
  | c :: cs =>
      if "rating:".data.isPrefixOf (c :: cs) then
        let afterWs := ((c :: cs).drop 7).dropWhile isWs
        if "true".data.isPrefixOf afterWs then some "TRUE"
        else if "false".data.isPrefixOf afterWs then some "FALSE"
        else if "disputed".data.isPrefixOf afterWs then some "DISPUTED"
        else matchRating3 cs
      else matchRating3 cs

/-! ## Person-name extraction (VerificationPipeline.extractPersonName,
lines 172–198)

The two capture regexes are implemented directly because the captured group
is needed, not just match existence.  Under the `i` flag, `[A-Z][a-z]+`
matches any run of two or more ASCII letters; the lazy group
`(?:\s+[A-Z][a-z]+)*?` adds further whitespace-separated letter runs one at a
time until the continuation (`\s+the\s+(?:president|prime minister|chancellor)`
resp. `\s+is\s+the\s+…`) matches.  Letter runs are parsed by maximal munch,
which agrees with the backtracking regex because every continuation starts
with a whitespace class. -/

/-- Split off a leading whitespace run. -/
def takeWs (cs : List Char) : List Char × List Char :=
  (cs.takeWhile isWs, cs.dropWhile isWs)

/-- Split off a leading letter run. -/
def takeLetters (cs : List Char) : List Char × List Char :=
  (cs.takeWhile isLetterChar, cs.dropWhile isLetterChar)

/-- Strip a literal, comparing case-insensitively; returns the rest on
success. -/
def stripCI (pat : List Char) (cs : List Char) : Option (List Char) :=
  match pat, cs with
  | [], rest => some rest
  | _ :: _, [] => none
  | p :: ps, c :: rest => if lowerChar c = lowerChar p then stripCI ps rest else none

/-- Does one of the three office literals start here (case-insensitive). -/
def officeAt (cs : List Char) : Bool :=
  (stripCI "president".data cs).isSome ||
  (stripCI "prime minister".data cs).isSome ||
  (stripCI "chancellor".data cs).isSome

/-- Does `\s+the\s+(?:president|prime minister|chancellor)` match here. -/
def theOfficeAt (cs : List Char) : Bool :=
  let (ws1, r1) := takeWs cs
  if ws1.isEmpty then false
  else
    match stripCI "the".data r1 with
    | none => false
    | some r2 =>
        let (ws2, r3) := takeWs r2
        !ws2.isEmpty && officeAt r3

/-- Does `\s+is\s+the\s+(?:president|prime minister|chancellor)` match here. -/
def isTheOfficeAt (cs : List Char) : Bool :=
  let (ws1, r1) := takeWs cs
  if ws1.isEmpty then false
  else
    match stripCI "is".data r1 with
    | none => false
    | some r2 => theOfficeAt r2

/-- The lazy group: repeatedly try the continuation `endTest`, otherwise
consume one more `\s+`-plus-letter-run word into the capture. -/
def lazyWords (endTest : List Char → Bool) : ℕ → List Char → List Char → Option (List Char)
  | 0, _, _ => none
  | fuel + 1, acc, cs =>
      if endTest cs then some acc
      else
        let (ws, r1) := takeWs cs
        if ws.isEmpty then none
        else
          let (w, r2) := takeLetters r1
          if w.length ≥ 2 then lazyWords endTest fuel (acc ++ ws ++ w) r2
          else none

/-- Attempt of pattern `/is\s+([A-Z][a-z]+(?:\s+[A-Z][a-z]+)*?)\s+the\s+(?:president|prime minister|chancellor)/i`
at one start position; returns the captured group. -/
def personPat1At (cs : List Char) : Option (List Char) :=
  match stripCI "is".data cs with
  | none => none
  | some r1 =>
      let (ws, r2) := takeWs r1
      if ws.isEmpty then none
      else
        let (w, r3) := takeLetters r2
        if w.length ≥ 2 then lazyWords theOfficeAt (r3.length + 1) w r3 else none

/-- Attempt of pattern `/([A-Z][a-z]+(?:\s+[A-Z][a-z]+)*?)\s+is\s+the\s+(?:president|prime minister|chancellor)/i`
at one start position. -/
def personPat2At (cs : List Char) : Option (List Char) :=
  let (w, r) := takeLetters cs
  if w.length ≥ 2 then lazyWords isTheOfficeAt (r.length + 1) w r else none

/-- Leftmost-match scan: try every start position from the left. -/
def scanOpt (f : List Char → Option (List Char)) : List Char → Option (List Char)
  | [] => f []
  | c :: cs =>
      match f (c :: cs) with
      | some r => some r
      | none => scanOpt f cs

/-- Model of `s.trim()` (ASCII whitespace). -/
def jsTrim (s : String) : String :=
  ⟨((s.data.dropWhile isWs).reverse.dropWhile isWs).reverse⟩

/-- Is the word matched by `/^[A-Z][a-z]+$/` (case-sensitive). -/
def capWordB (w : String) : Bool :=
  match w.data with
  | [] => false
  | c :: rest =>
      ('A' ≤ c ∧ c ≤ 'Z') && !rest.isEmpty &&
      rest.all (fun d => 'a' ≤ d ∧ d ≤ 'z')

/-- Model of VerificationPipeline.extractPersonName (lines 172–198). -/
def extractPersonName (claim : String) : String :=
  match scanOpt personPat1At claim.data with
  | some cap => jsTrim ⟨cap⟩
  | none =>
      match scanOpt personPat2At claim.data with
      | some cap => jsTrim ⟨cap⟩
      | none =>
          let stop := ["Is", "The", "Of", "In", "And", "Or", "But", "A", "An",
                       "President", "Prime", "Minister", "Chancellor", "USA",
                       "United", "States"]
          let potentialNames :=
            (splitWs claim).filter (fun w => capWordB w && !(stop.contains w))
          String.intercalate " " (potentialNames.take 2)

/-! ## Political-position verification and current-event detection -/

/-- Transcription of the nine currentPositionPatterns (lines 224–234); `.`
does not match a line terminator. -/
def currentPositionPatterns : List Rgx :=
  [ catL [lit "current", .star dotNN, lit "president"],
    catL [lit "president", .star dotNN, lit "of", .star dotNN, lit "united",
          .star dotNN, lit "states"],
    catL [lit "current", .star dotNN, lit "prime", .star dotNN, lit "minister"],
    catL [lit "current", .star dotNN, lit "chancellor"],
    catL [repN digitR 4, .star dotNN, lit "presidential", .star dotNN,
          lit "election", .star dotNN, lit "won"],
    catL [lit "won", .star dotNN, repN digitR 4, .star dotNN, lit "election"],
    catL [lit "inaugurated", .star dotNN, repN digitR 4],
    catL [lit "current", .star dotNN, lit "tenure"],
    catL [rplus digitR, lit "th", .star dotNN, lit "president"] ]

/-- Model of VerificationPipeline.verifyPoliticalPositionClaim (lines
200–259).  The `claim` argument is only logged by the source, never read for
the decision. -/
def verifyPoliticalPositionClaim (_claim content personName : String) : Bool :=
  let lowerContent := lowerStr content
  let lowerPersonName := lowerStr personName
  let personNameWords := splitWs lowerPersonName
  let hasPersonName := personNameWords.all (fun w => strContains lowerContent w)
  if !hasPersonName then false
  else
    let hasCurrentPosition :=
      currentPositionPatterns.any (fun p => rgxSearch p lowerContent && hasPersonName)
    let hasPositionMention :=
      ["president", "prime minister", "chancellor"].any
        (fun pos => strContains lowerContent pos && hasPersonName)
    hasCurrentPosition || hasPositionMention

/-- Transcription of `/is (?:the )?current/i`. -/
def isTheCurrentPat : Rgx := catL [lit "is ", ropt (lit "the "), lit "current"]

/-- Model of VerificationPipeline.isCurrentEventClaim (lines 1314–1374).
`currentYear` stands for `new Date().getFullYear()`. -/
def isCurrentEventClaim (currentYear : ℕ) (claim : String) : Bool :=
  let currentEventIndicators :=
    ["current", "currently", "now", "present", "recent", "recently",
     "this year", "this month", "this week", "today", "yesterday",
     "announced", "reported", "declared", "confirmed", "stated",
     "according to", "as of", "latest", "new", "update", "breaking",
     "president of the united states", "potus", "us president",
     "american president", "president of the us", "president of the u.s."]
  let politicalPositions :=
    ["president", "prime minister", "chancellor", "premier", "mayor",
     "governor", "senator", "representative", "congressman", "congresswoman",
     "minister", "secretary", "speaker", "leader", "chair", "chairperson",
     "commissioner"]
  let lowerClaim := lowerStr claim
  if strContains lowerClaim "president" &&
      (strContains lowerClaim "usa" || strContains lowerClaim "united states" ||
       strContains lowerClaim "u.s.") &&
      (strContains lowerClaim "current" || strContains lowerClaim "now" ||
       strContains lowerClaim "present" || strContains lowerClaim "currently") then
    true
  else if containsWord (toString currentYear) lowerClaim then true
  else if politicalPositions.any (fun pos =>
      containsWord pos lowerClaim &&
      !(strContains lowerClaim "former") && !(strContains lowerClaim "ex-") &&
      !(strContains lowerClaim "previous") && !(strContains lowerClaim "past") &&
      !(strContains lowerClaim "was")) then
    true
  else
    let hasEventIndicators :=
      currentEventIndicators.any (fun i => strContains lowerClaim i)
    if rgxSearch isTheCurrentPat lowerClaim then true
    else hasEventIndicators

/-! ## Scoring helpers of the verification pipeline -/

/-- Type guard hasConflictingRatings (verification-pipeline, lines 151–153):
true only when the field is present, boolean and true. -/
def hasConflictsGuard (m : EvidenceMetadata) : Bool :=
  m.hasConflictingRatings.getD false

/-- Model of VerificationPipeline.countContradictions (lines 1428–1433). -/
def countContradictions (evidence : List Evidence) : ℕ :=
  (evidence.filter (fun e => e.metadata.isContradictory)).length

/-- Model of VerificationPipeline.calculateContradictionRatio (lines
1422–1426): guarded division, 0 for an empty list. -/
def calculateContradictionRatio (evidence : List Evidence) : ℚ :=
  if evidence.length > 0 then (countContradictions evidence : ℚ) / evidence.length
  else 0

/-- Number of distinct source types among the evidence
(`new Set(evidence.map(e => e.source.type)).size`). -/
def distinctTypes (evidence : List Evidence) : ℕ :=
  ((evidence.map (fun e => e.source.type)).dedup).length

/-- Number of distinct source ids among the evidence. -/
def distinctSourceIds (evidence : List Evidence) : ℕ :=
  ((evidence.map (fun e => e.source.id)).dedup).length

/-- Model of VerificationPipeline.calculateSourceDiversity (lines 1415–1420);
`Object.keys(SourceType).length` is 5. -/
def calculateSourceDiversity (evidence : List Evidence) : ℚ :=
  let totalSourceTypes : ℕ := 5
  if totalSourceTypes > 0 then (distinctTypes evidence : ℚ) / totalSourceTypes else 0

/-- Model of VerificationPipeline.calculateEvidenceConsistency (lines
1407–1413). -/
def calculateEvidenceConsistency (evidence : List Evidence) : ℚ :=
  if evidence.length > 0 then (distinctSourceIds evidence : ℚ) / evidence.length
  else 0

/-- Model of VerificationPipeline.calculateEvidenceSpecificity (lines
1562–1579). -/
def calculateEvidenceSpecificity (e : Evidence) (keyTerms : List String) : ℚ :=
  let content := lowerStr e.content
  let words := splitWs content
  let matchingTerms := keyTerms.filter (fun t => strContains content (lowerStr t))
  let termDensity := jsDiv (matchingTerms.length : ℚ) (words.length : ℚ)
  let termCoverage := jsDiv (matchingTerms.length : ℚ) (keyTerms.length : ℚ)
  let specificityPenalty : ℚ :=
    if words.length > 100 ∧ termDensity < 0.1 then 0.5 else 1
  (termDensity * 0.4 + termCoverage * 0.6) * specificityPenalty

/-- Model of VerificationPipeline.calculateVerificationConfidence (lines
1376–1405); the result is clamped to [0,1]. -/
def calculateVerificationConfidence (evidence : List Evidence)
    (reliabilityScore : ℚ) (evidenceScores : List ℚ) : ℚ :=
  if evidence.length = 0 then 0
  else
    let averageEvidenceScore := jsDiv evidenceScores.sum (evidenceScores.length : ℚ)
    let sourceDiversity := calculateSourceDiversity evidence
    let consistencyScore := calculateEvidenceConsistency evidence
    let contradictionRatio := calculateContradictionRatio evidence
    let contradictionPenalty := 1 - contradictionRatio * 0.5
    let confidence :=
      (averageEvidenceScore * 0.4 + reliabilityScore * 0.2 +
       sourceDiversity * 0.2 + consistencyScore * 0.2) * contradictionPenalty
    min (max confidence 0) 1

/-- The wikipedia-reference predicate used by several find calls. -/
def isWikipediaEvidence (e : Evidence) : Bool :=
  e.source.type = .REFERENCE && strContains (lowerStr e.source.name) "wikipedia"

/-- The rating mapping of determineVerificationStatus (lines 1444–1455),
applied to the token extracted from the lower-cased content with
`/fact check rating:\s*(\w+)/` and upper-cased. -/
def factCheckStatusFromRating (fce : Evidence) : Option VStatus :=
  match matchKeyWord "fact check rating:".data (lowerStr fce.content).data with
  | some w =>
      let rating := upperStr ⟨w⟩
      if rating = "FALSE" ∨ rating = "INCORRECT" ∨ rating = "WRONG" then
        some .FALSE
      else if rating = "DISPUTED" ∨ rating = "MIXED" ∨
          rating = "PARTIALLY_FALSE" ∨ rating = "PARTIALLY_CORRECT" then
        some .DISPUTED
      else if rating = "TRUE" ∨ rating = "CORRECT" ∨ rating = "VERIFIED" then
        some .VERIFIED
      else none
  | none => none

/-- Model of VerificationPipeline.determineVerificationStatus (lines
1436–1493).  The constants are MIN_EVIDENCE_COUNT = 1, MIN_SOURCE_TYPES = 1,
MAX_CONTRADICTION_THRESHOLD = 0.2, MIN_CONFIDENCE_THRESHOLD = 0.6.  The
`hasConflicts` parameter is accepted but never read by the source body.  An
unmapped or missing rating on fact-check evidence falls through (the source
comment claims otherwise, but there is no early return). -/
def determineVerificationStatus (confidence : ℚ) (_hasConflicts : Bool)
    (evidence : List Evidence) : VStatus :=
  let generic : VStatus :=
    if evidence.length < 1 then .UNVERIFIED
    else if distinctTypes evidence < 1 then .UNVERIFIED
    else if calculateContradictionRatio evidence > 0.2 then .DISPUTED
    else if confidence ≥ 0.6 then .VERIFIED
    else .UNVERIFIED
  let afterFactCheck : VStatus :=
    match evidence.find? isWikipediaEvidence with
    | some _ =>
        if evidence.any (fun e => e.metadata.isContradictory) then generic
        else .VERIFIED
    | none => generic
  match evidence.find? (fun e => e.source.metadata.isFactChecker) with
  | some fce =>
      match factCheckStatusFromRating fce with
      | some st => st
      | none =>
          if fce.metadata.isContradictory then .FALSE else afterFactCheck
  | none => afterFactCheck

/-! ## VerificationPipeline.calculateVerificationResult (lines 860–1037)
and the claim-specific verifiers it dispatches to -/

/-- Model of `e.metadata.originalClaim || claim` (an absent or empty original
claim falls back to the request claim). -/
def originalClaimOr (o : Option String) (claim : String) : String :=
  match o with
  | some s => if s = "" then claim else s
  | none => claim

/-- Shared result builder: all early returns of calculateVerificationResult
carry the full evidence list, its sources, the claim analysis with
contradictionRatio 0 and no evidence scores. -/
def mkCore (claim : String) (st : VStatus) (conf : ℚ) (evidence : List Evidence)
    (ca : VMetadata) : VCore :=
  { claim := claim, status := st, confidence := conf, evidence := evidence
    sources := evidence.map (fun e => e.source)
    metadata := { ca with contradictionRatio := 0, evidenceScores := [] } }

/-- The fact-check section of calculateVerificationResult (lines 874–946),
as an optional early return: `none` means control falls through to the
predictive-claim check. -/
def factCheckBranch (claim : String) (evidence : List Evidence)
    (ca : VMetadata) : Option VCore :=
  match evidence.find? (fun e =>
      e.categories.contains "fact-checking" || e.source.metadata.isFactChecker) with
  | none => none
  | some fce =>
      match extractRatingWord fce.content with
      | some rating =>
          if rating = "FALSE" then some (mkCore claim .FALSE 0.95 evidence ca)
          else if rating = "DISPUTED" ∨ rating = "MIXED" ∨ rating = "PARTIALLY_FALSE" then
            some (mkCore claim .DISPUTED 0.7 evidence ca)
          else if rating = "TRUE" then some (mkCore claim .VERIFIED 0.95 evidence ca)
          else if fce.metadata.isContradictory then
            some (mkCore claim .FALSE 0.95 evidence ca)
          else none
      | none =>
          if fce.metadata.isContradictory then
            some (mkCore claim .FALSE 0.95 evidence ca)
          else none

/-- Model of VerificationPipeline.calculateBiographicalConfidence (lines
1120–1164). -/
def calculateBiographicalConfidence (evidence : List Evidence) : ℚ :=
  if evidence.length = 0 then 0
  else
    let sourceScores := evidence.map (fun e =>
      let score := getSourceReliabilityScore e.source
      let score := if isWikipediaEvidence e then min (score * 1.2) 0.95 else score
      let score := if e.source.type = .ACADEMIC then min (score * 1.1) 0.95 else score
      score)
    let averageSourceScore := jsDiv sourceScores.sum (sourceScores.length : ℚ)
    let evidenceQualityScore :=
      jsDiv (evidence.map (fun e =>
        let itemScore : ℚ :=
          (if e.metadata.isDirectStatement then 0.3 else 0) +
          (if e.metadata.isOfficialDocument then 0.2 else 0) +
          (if e.metadata.isPrimarySource then 0.1 else 0) +
          (if e.metadata.isBiographical then 0.1 else 0)
        min itemScore 0.5)).sum (evidence.length : ℚ)
    averageSourceScore * 0.6 + evidenceQualityScore * 0.4

/-- Model of VerificationPipeline.verifyBiographicalClaim (lines 1039–1118).
The reliabilityScore parameter is accepted but never read by the body. -/
def verifyBiographicalClaim (claim : String) (evidence : List Evidence)
    (_reliabilityScore : ℚ) (ca : VMetadata) : VCore :=
  let hasHighReliabilitySource := evidence.any (fun e =>
    getSourceReliabilityScore e.source ≥ 0.8 ||
    e.source.type = .REFERENCE || e.source.type = .ACADEMIC)
  if !hasHighReliabilitySource then mkCore claim .UNVERIFIED 0 evidence ca
  else
    let directSupport := evidence.any (fun e =>
      let content := lowerStr e.content
      (extractKeyTerms claim).all (fun term => strContains content term))
    if !directSupport then mkCore claim .UNVERIFIED 0.4 evidence ca
    else
      let confidence := calculateBiographicalConfidence evidence
      let hasWikipedia := evidence.any isWikipediaEvidence
      mkCore claim .VERIFIED
        (if hasWikipedia then min (confidence * 1.1) 0.95 else confidence)
        evidence ca

/-- The currentPresidentEvidence predicate of verifyFactualClaim (lines
1194–1202). -/
def isCurrentPresidentEvidence (e : Evidence) : Bool :=
  let content := lowerStr e.content
  (strContains content "donald trump" &&
    (strContains content "current president" ||
     strContains content "47th president" ||
     strContains content "inaugurated 2025")) ||
  (strContains content "president of the united states" &&
    strContains content "since 2025")

/-- Model of VerificationPipeline.verifyFactualClaim (lines 1166–1312).
`currentYear` stands for `new Date().getFullYear()` (read through
isCurrentEventClaim).  The unguarded `contradictions.length / evidence.length`
of the source yields NaN for an empty list; the embedding yields 0 there
(the value only reaches the metadata field). -/
def verifyFactualClaim (currentYear : ℕ) (claim : String)
    (evidence : List Evidence) (reliabilityScore : ℚ) (ca : VMetadata) : VCore :=
  let lowerClaim := lowerStr claim
  let isUSPresidencyClaim :=
    strContains lowerClaim "president" &&
    (strContains lowerClaim "usa" || strContains lowerClaim "united states" ||
     strContains lowerClaim "u.s.")
  let wikipediaEvidence := evidence.find? isWikipediaEvidence
  let currentPresidentStep : Option VCore :=
    if isUSPresidencyClaim then
      match evidence.find? isCurrentPresidentEvidence with
      | some cpe =>
          some { claim := claim, status := .VERIFIED, confidence := 0.98
                 evidence := [cpe], sources := [cpe.source]
                 metadata := { ca with
                   isTemporalClaim := true, isFactualClaim := true
                   categories := ["politics", "government", "us-presidency"]
                   contradictionRatio := 0, evidenceScores := [0.98] } }
      | none => none
    else none
  match currentPresidentStep with
  | some r => r
  | none =>
    match wikipediaEvidence, isCurrentEventClaim currentYear claim with
    | some w, true =>
        if isUSPresidencyClaim then
          let content := lowerStr w.content
          let supportsTrumpAsPresident :=
            strContains content "donald trump" &&
            (strContains content "current president" ||
             strContains content "47th president" ||
             strContains content "inaugurated 2025")
          { claim := claim
            status := if supportsTrumpAsPresident then .VERIFIED else .FALSE
            confidence := 0.96, evidence := [w], sources := [w.source]
            metadata := { ca with
              isTemporalClaim := true, isFactualClaim := true
              categories := ["politics", "government", "us-presidency"]
              contradictionRatio := 0, evidenceScores := [0.96] } }
        else
          { claim := claim, status := .VERIFIED, confidence := 0.95
            evidence := [w], sources := [w.source]
            metadata := { ca with contradictionRatio := 0, evidenceScores := [0.95] } }
    | _, _ =>
        let keyTerms := extractKeyTerms claim
        let contradictions := evidence.filter (fun e => e.metadata.isContradictory)
        let contradictionRatio :=
          jsDiv (contradictions.length : ℚ) (evidence.length : ℚ)
        let evidenceScores := evidence.map (fun e =>
          let content := lowerStr e.content
          let termMatches := keyTerms.filter (fun t => strContains content (lowerStr t))
          let termMatchScore := jsDiv (termMatches.length : ℚ) (keyTerms.length : ℚ)
          let sourceScore := getSourceReliabilityScore e.source
          let sourceScore :=
            if isWikipediaEvidence e then min (sourceScore * 1.3) 0.95 else sourceScore
          let specificityScore := calculateEvidenceSpecificity e keyTerms
          termMatchScore * 0.3 + sourceScore * 0.5 + specificityScore * 0.2)
        let confidence :=
          calculateVerificationConfidence evidence reliabilityScore evidenceScores
        let status :=
          determineVerificationStatus confidence
            (evidence.any (fun e => hasConflictsGuard e.metadata)) evidence
        { claim := claim, status := status, confidence := confidence
          evidence := evidence, sources := evidence.map (fun e => e.source)
          metadata := { ca with
            contradictionRatio := contradictionRatio
            evidenceScores := evidenceScores } }

/-- The per-evidence score of the regular fallback of
calculateVerificationResult (lines 990–1006 and 1018–1034): term match 0.4,
source reliability 0.3, specificity 0.3, with key terms drawn from
`e.metadata.originalClaim || claim`. -/
def fallbackEvidenceScore (claim : String) (e : Evidence) : ℚ :=
  let content := lowerStr e.content
  let terms := extractKeyTerms (originalClaimOr e.metadata.originalClaim claim)
  let termMatches := terms.filter (fun t => strContains content (lowerStr t))
  let termMatchScore := jsDiv (termMatches.length : ℚ) (terms.length : ℚ)
  let sourceScore := getSourceReliabilityScore e.source
  let specificityScore := calculateEvidenceSpecificity e terms
  termMatchScore * 0.4 + sourceScore * 0.3 + specificityScore * 0.3

/-- Model of VerificationPipeline.calculateVerificationResult (lines
860–1037).  `currentYear` stands for `new Date().getFullYear()`. -/
def calculateVerificationResult (currentYear : ℕ) (claim : String)
    (er : EvidenceResult) (ca : VMetadata) : VCore :=
  let evidence := er.evidence
  let reliabilityScore := er.reliabilityScore
  match factCheckBranch claim evidence ca with
  | some r => r
  | none =>
    if ca.isPredictiveClaim then mkCore claim .UNVERIFIED 0 evidence ca
    else if ca.categories.contains "biography" || isBiographicalClaim claim then
      verifyBiographicalClaim claim evidence reliabilityScore ca
    else if ca.isFactualClaim then
      verifyFactualClaim currentYear claim evidence reliabilityScore ca
    else if evidence.length < 1 then
      -- MIN_EVIDENCE_COUNT = 1; confidence still surfaces the aggregate
      -- reliability score
      mkCore claim .UNVERIFIED reliabilityScore evidence ca
    else
      let evidenceScores := evidence.map (fallbackEvidenceScore claim)
      let confidence :=
        calculateVerificationConfidence evidence reliabilityScore evidenceScores
      let status :=
        determineVerificationStatus confidence
          (evidence.any (fun e => hasConflictsGuard e.metadata)) evidence
      { claim := claim, status := status, confidence := confidence
        evidence := evidence, sources := evidence.map (fun e => e.source)
        metadata := { ca with
          contradictionRatio := calculateContradictionRatio evidence
          evidenceScores := evidenceScores } }

/-! ## VerificationPipeline.verifyClaim (lines 261–547)

The entry point is deterministic once the gathered evidence and the scores
returned by the three AI judges are fixed; both are taken as arguments.
`ai.gemini = none` covers a missing GEMINI_API_KEY as well as a judge call
whose result carries no numeric score. -/

/-- One AI judge response (score, rationale text, label), after the
error-catching wrappers have run. -/
structure AIJudge where
  score : ℚ
  evidence : String
  label : String
deriving DecidableEq, Repr

/-- The deterministic inputs of the AI tier. -/
structure AIInputs where
  openai : AIJudge
  huggingface : AIJudge
  gemini : Option AIJudge
deriving DecidableEq, Repr

/-- The fixed source object attached to appended Gemini evidence (lines
481–495).  The source also sets an `isCurrent: true` entry that is not part
of the declared metadata interface and is never read; it is not modelled. -/
def geminiSource : Source :=
  { id := "gemini-llm", name := "Gemini LLM", type := .REFERENCE
    reliability := .VERIFIED, url := "https://ai.google.com/gemini/"
    verificationStatus := .VERIFIED, categories := ["ai", "llm", "verification"]
    metadata := { isReference := true, isAI := true } }

/-- The Gemini evidence item appended by the AI tier (lines 477–508).  The
source id suffix `Date.now()` is dropped: no decision reads the id. -/
def geminiEvidenceOf (g : AIJudge) : Evidence :=
  { id := "gemini-llm", content := g.evidence, source := geminiSource
    url := "https://ai.google.com/gemini/", confidence := g.score
    categories := ["ai", "llm", "verification"]
    metadata := { isReference := true, isAI := true } }

/-- The AI-ensemble tier of verifyClaim (lines 380–526): weighted mean of the
judge scores (openai 0.5, huggingface 0.2, gemini 0.3), thresholds 0.7/0.3,
explanation from the single highest-scoring judge, Gemini rationale appended
as extra evidence when non-empty. -/
def aiTier (claim : String) (er : EvidenceResult) (ai : AIInputs) : VResult :=
  let aiResults : List (AIJudge × ℚ) :=
    [ ({ score := ai.openai.score
         evidence := strOr ai.openai.evidence "OpenAI did not provide detailed reasoning."
         label := strOr ai.openai.label "neutral" }, 0.5),
      ({ score := ai.huggingface.score
         evidence := strOr ai.huggingface.evidence "HuggingFace NLI did not provide detailed reasoning."
         label := strOr ai.huggingface.label "neutral" }, 0.2) ] ++
    (match ai.gemini with
     | some g => [({ score := g.score, evidence := g.evidence, label := g.label }, 0.3)]
     | none => [])
  let totalWeight := (aiResults.map (fun r => r.2)).sum
  let weightedScore :=
    if totalWeight > 0 then (aiResults.map (fun r => r.1.score * r.2)).sum / totalWeight
    else 0
  let status : VStatus :=
    if weightedScore > 0.7 then .VERIFIED
    else if weightedScore < 0.3 then .FALSE
    else .DISPUTED
  let bestResult : AIJudge :=
    match aiResults with
    | [] => { score := 0, evidence := "No AI verification results available."
              label := "neutral" }
    | r :: rest =>
        (rest.foldl (fun best cur => if cur.1.score > best.1.score then cur else best) r).1
  let geminiEv : List Evidence :=
    match ai.gemini with
    | some g => if g.evidence ≠ "" then [geminiEvidenceOf g] else []
    | none => []
  { claim := claim, status := status, confidence := weightedScore
    explanation := strOr bestResult.evidence claim
    evidence := er.evidence ++ geminiEv
    sources := er.evidence.map (fun e => e.source) ++ geminiEv.map (fun e => e.source)
    metadata := { isTemporalClaim := false, isFactualClaim := true
                  isPredictiveClaim := false, categories := ["ai-verification"]
                  contradictionRatio := 0, evidenceScores := [] } }

/-- The Wikipedia current-event tier of verifyClaim (lines 273–348). -/
def wikipediaTier (claim : String) (w : Evidence) : VResult :=
  let content := lowerStr w.content
  let lowerClaim := lowerStr claim
  let isCurrentPoliticalClaim :=
    (strContains lowerClaim "president" || strContains lowerClaim "prime minister" ||
     strContains lowerClaim "chancellor") &&
    (strContains lowerClaim "usa" || strContains lowerClaim "united states" ||
     strContains lowerClaim "u.s." || strContains lowerClaim "uk" ||
     strContains lowerClaim "united kingdom" || strContains lowerClaim "germany" ||
     strContains lowerClaim "france" || strContains lowerClaim "canada" ||
     strContains lowerClaim "australia") &&
    (strContains lowerClaim "current" || strContains lowerClaim "now" ||
     strContains lowerClaim "present" || strContains lowerClaim "is" ||
     strContains lowerClaim "president of")
  let step : Bool × ℚ × List String :=
    if isCurrentPoliticalClaim then
      let personName := extractPersonName claim
      let supports := verifyPoliticalPositionClaim claim content personName
      (supports, if supports then 0.98 else 0.95, ["current-events", "politics"])
    else
      let claimTerms := extractKeyTerms claim
      let supports := claimTerms.all (fun term => strContains content (lowerStr term))
      (supports, 0.95,
       if supports then ["current-events", "general"] else ["current-events"])
  let supports := step.1
  let determinedConfidence := step.2.1
  let categories := step.2.2
  { claim := claim
    status := if supports then .VERIFIED else .FALSE
    confidence := determinedConfidence
    explanation := "This claim has been " ++
      (if supports then "verified" else "disputed") ++ " by Wikipedia."
    evidence := [w], sources := [w.source]
    metadata := { isTemporalClaim := true, isFactualClaim := true
                  isPredictiveClaim := false, categories := categories
                  contradictionRatio := 0
                  evidenceScores := [determinedConfidence] } }

/-- The fact-check tier of verifyClaim (lines 350–378): token mapping
TRUE→Verified, FALSE→False, anything else (including an absent token) →
Disputed; confidence fixed at 0.95 in every case. -/
def factCheckTier (claim : String) (fce : Evidence) : VResult :=
  let rating := matchRating3 (lowerStr fce.content).data
  let status : VStatus :=
    if rating = some "TRUE" then .VERIFIED
    else if rating = some "FALSE" then .FALSE
    else .DISPUTED
  { claim := claim, status := status, confidence := 0.95
    explanation := fce.content, evidence := [fce], sources := [fce.source]
    metadata := { isTemporalClaim := false, isFactualClaim := true
                  isPredictiveClaim := false, categories := ["fact-checking"]
                  contradictionRatio := 0, evidenceScores := [] } }

/-- Model of VerificationPipeline.verifyClaim (lines 261–547), given the
gathered evidence and the AI judge outputs.  `currentYear` stands for
`new Date().getFullYear()`. -/
def verifyClaimPipeline (currentYear : ℕ) (claim : String) (er : EvidenceResult)
    (ai : AIInputs) : VResult :=
  let afterWiki : VResult :=
    match er.evidence.find? (fun e => e.source.metadata.isFactChecker) with
    | some fce => factCheckTier claim fce
    | none => aiTier claim er ai
  match er.evidence.find? isWikipediaEvidence with
  | some w =>
      if isCurrentEventClaim currentYear claim then wikipediaTier claim w
      else afterWiki
  | none => afterWiki

/-- The value built by the catch-handler of VerificationPipeline.verifyClaim
(lines 527–546): no `error` entry is written into the metadata. -/
def pipelineCatchResult (claim : String) : VResult :=
  { claim := claim, status := .UNVERIFIED, confidence := 0
    explanation := "Error during verification process"
    evidence := [], sources := []
    metadata := { isTemporalClaim := false, isFactualClaim := false
                  isPredictiveClaim := false, categories := []
                  contradictionRatio := 0, evidenceScores := [] } }

/-- The value built by the catch-handler of VerificationService.verifyClaim
(src/lib/verification-service.ts lines 20–39): again no `error` entry. -/
def serviceCatchResult (claim : String) : VResult :=
  { claim := claim, status := .UNVERIFIED, confidence := 0
    explanation := "An error occurred while verifying this claim."
    evidence := [], sources := []
    metadata := { isTemporalClaim := false, isFactualClaim := false
                  isPredictiveClaim := false, categories := []
                  contradictionRatio := 0, evidenceScores := [] } }

/-- Model of VerificationPipeline.verifyWithFactCheck (lines 1703–1774)
applied to evidence already gathered from the fact-check sources (the network
call is outside the embedding).  Confidence is the maximum evidence
confidence, the explanation is the content of the first evidence item of
maximal confidence, and metadata.contradictionRatio is hard-coded to 0.3
when conflicting ratings are flagged and 0 otherwise. -/
def verifyWithFactCheckOn (claim : String) (evidence : List Evidence) : VResult :=
  match evidence with
  | [] =>
      { claim := claim, status := .UNVERIFIED, confidence := 0
        explanation := "No fact-check evidence found", evidence := [], sources := []
        metadata := { isTemporalClaim := false, isFactualClaim := true
                      isPredictiveClaim := false, categories := []
                      contradictionRatio := 0, evidenceScores := [] } }
  | e0 :: _ =>
      let hasConflicts := evidence.any (fun e => hasConflictsGuard e.metadata)
      let confidence := evidence.foldl (fun m e => max m e.confidence) e0.confidence
      let bestEvidence := evidence.foldl
        (fun best curr => if curr.confidence > best.confidence then curr else best) e0
      let sources := evidence.map (fun e => e.source)
      { claim := claim
        status := determineVerificationStatus confidence hasConflicts evidence
        confidence := confidence
        explanation := bestEvidence.content
        evidence := evidence, sources := sources
        metadata := { isTemporalClaim := false, isFactualClaim := true
                      isPredictiveClaim := false, categories := []
                      contradictionRatio := if hasConflicts then 0.3 else 0
                      evidenceScores := evidence.map (fun e => e.confidence) } }

/-! ## EvidenceGatherer.validateEvidence deduplication step
(src/unnamed/part_004, lines 567–572) -/

/-- Replacement of a stored entry by `e` when the contents (keys) agree. -/
def replBy (e x : Evidence) : Evidence :=
  if x.content = e.content then e else x

/-- One step of `new Map(entries)` construction: `Map.prototype.set` replaces
the value stored under an existing key but keeps the key at its original
insertion position; a new key is appended at the end. -/
def mapSetByContent (m : List Evidence) (e : Evidence) : List Evidence :=
  if m.any (fun x => x.content = e.content) then m.map (replBy e)
  else m ++ [e]

/-- Model of the deduplication step
`Array.from(new Map(evidence.map(e => [e.content, e])).values())`. -/
def dedupByContent (evidence : List Evidence) : List Evidence :=
  evidence.foldl mapSetByContent []

/-- Fold step that keeps the latest element whose content matches that of
`y`. -/
def lastStep (y acc x : Evidence) : Evidence :=
  if x.content = y.content then x else acc

/-- The last element of `e :: rest` whose content equals that of `e`. -/
def lastWithContent (e : Evidence) (rest : List Evidence) : Evidence :=
  rest.foldl (lastStep e) e

/-- Specification of what the deduplication actually keeps: for each distinct
content, in order of first appearance, the LAST input item carrying it. -/
def keepLastByContent : List Evidence → List Evidence
  | [] => []
  | e :: rest =>
      lastWithContent e rest ::
      keepLastByContent (rest.filter (fun x => x.content ≠ e.content))
termination_by l => l.length
decreasing_by
  simp only [List.length_cons]
  exact Nat.lt_succ_of_le (List.length_filter_le _ _)

/-! ## Concrete fixtures used by witnesses and counterexamples -/

/-- A plain news source (not a fact checker, not Wikipedia). -/
def newsSrc : Source :=
  { id := "a", name := "A News", type := .NEWS, reliability := .ESTABLISHED
    url := "", verificationStatus := .VERIFIED, categories := []
    metadata := {} }

/-- A second plain source with a different id. -/
def newsSrcB : Source :=
  { id := "b", name := "B News", type := .NEWS, reliability := .ESTABLISHED
    url := "", verificationStatus := .VERIFIED, categories := []
    metadata := {} }

/-- A fact-checker source (isFactChecker flag set). -/
def checkerSrc : Source :=
  { id := "fc", name := "Checker", type := .REFERENCE, reliability := .VERIFIED
    url := "", verificationStatus := .VERIFIED, categories := ["fact-checking"]
    metadata := { isFactChecker := true, isReference := true } }

/-- The Wikipedia source as built by the evidence gatherer. -/
def wikiSrc : Source :=
  { id := "wikipedia", name := "Wikipedia", type := .REFERENCE
    reliability := .VERIFIED, url := "", verificationStatus := .VERIFIED
    categories := ["reference", "encyclopedia"]
    metadata := { isReference := true } }

/-- Fact-check evidence with the given content. -/
def fcEv (c : String) : Evidence :=
  { id := "e1", content := c, source := checkerSrc, url := "", confidence := 0.95
    categories := ["fact-checking"], metadata := {} }

/-- Plain news evidence with the given id, content and contradiction flag. -/
def newsEv (i : String) (c : String) (contra : Bool) : Evidence :=
  { id := i, content := c, source := newsSrc, url := "", confidence := 0.5
    categories := [], metadata := { isContradictory := contra } }

/-- Wikipedia evidence with the given content. -/
def wikiEv (c : String) : Evidence :=
  { id := "w1", content := c, source := wikiSrc, url := "", confidence := 0.9
    categories := ["reference"], metadata := { isReference := true } }

/-- AI judge inputs where both always-on judges score 0.9. -/
def aiHi : AIInputs :=
  { openai := { score := 0.9, evidence := "r1", label := "entailment" }
    huggingface := { score := 0.9, evidence := "r2", label := "entailment" }
    gemini := none }

/-- Fact-check evidence flagged contradictory, without conflicting ratings. -/
def contraFcEv : Evidence :=
  { id := "e2", content := "Fact Check by X\n\nRating: FALSE", source := checkerSrc
    url := "", confidence := 0.95, categories := ["fact-checking"]
    metadata := { isContradictory := true } }

/-- Two evidence items with identical content but different ids and sources. -/
def dupA : Evidence :=
  { id := "1", content := "same text", source := newsSrc, url := ""
    confidence := 0.5, categories := [], metadata := {} }

/-- See `dupA`. -/
def dupB : Evidence :=
  { id := "2", content := "same text", source := newsSrcB, url := ""
    confidence := 0.6, categories := [], metadata := {} }

/-! ## C1: the isPredictive pre-check -/

/-- C1 counterexample.  The claim "the earth will be destroyed by an asteroid
in 2050" is classified predictive, yet with fact-check evidence rated TRUE
both the pipeline entry point and calculateVerificationResult return
Verified at 0.95 — not Unverified at 0. -/
theorem C1_counterexample :
    (analyzeClaim "the earth will be destroyed by an asteroid in 2050").isPredictiveClaim
      = true ∧
    (verifyClaimPipeline 2026 "the earth will be destroyed by an asteroid in 2050"
      ⟨[fcEv "Rating: TRUE"], 1, 0.85⟩ aiHi).status = .VERIFIED ∧
    (calculateVerificationResult 2026 "the earth will be destroyed by an asteroid in 2050"
      ⟨[fcEv "Rating: TRUE"], 1, 0.85⟩
      (analyzeClaim "the earth will be destroyed by an asteroid in 2050")).status
      = .VERIFIED ∧
    (calculateVerificationResult 2026 "the earth will be destroyed by an asteroid in 2050"
      ⟨[fcEv "Rating: TRUE"], 1, 0.85⟩
      (analyzeClaim "the earth will be destroyed by an asteroid in 2050")).confidence
      = 0.95 := by
  refine ⟨by decide, by decide, by decide, rfl⟩

/-- C1 amended: in calculateVerificationResult a predictive claim yields
Unverified with confidence 0 provided the fact-check branch did not already
decide the claim (fact-check evidence takes precedence over the predictive
pre-check); the pipeline entry point verifyClaim contains no predictive
pre-check at all. -/
theorem C1_amended_predictive_unverified (currentYear : ℕ) (claim : String)
    (er : EvidenceResult) (ca : VMetadata)
    (hpred : ca.isPredictiveClaim = true)
    (hfc : factCheckBranch claim er.evidence ca = none) :
    (calculateVerificationResult currentYear claim er ca).status = .UNVERIFIED ∧
    (calculateVerificationResult currentYear claim er ca).confidence = 0 := by
  simp only [calculateVerificationResult, hfc, hpred, if_true]
  exact ⟨rfl, rfl⟩

/-- C1 witness: a concrete predictive claim with no fact-check evidence. -/
theorem C1_witness :
    (calculateVerificationResult 2026 "x will y" ⟨[], 0, 0⟩
      (analyzeClaim "x will y")).status = .UNVERIFIED ∧
    (calculateVerificationResult 2026 "x will y" ⟨[], 0, 0⟩
      (analyzeClaim "x will y")).confidence = 0 :=
  C1_amended_predictive_unverified 2026 "x will y" ⟨[], 0, 0⟩
    (analyzeClaim "x will y") (by decide) (by decide)

/-! ## C2: zero evidence -/

/-- C2 counterexample.  With zero evidence from every provider the pipeline
entry point falls through to the AI-ensemble tier: with both always-on judges
scoring 0.9 the result is Verified at confidence 0.9, not Unverified at 0. -/
theorem C2_counterexample :
    (verifyClaimPipeline 2026 "zz" ⟨[], 0, 0⟩ aiHi).status = .VERIFIED ∧
    (verifyClaimPipeline 2026 "zz" ⟨[], 0, 0⟩ aiHi).confidence = 0.9 := by
  have he : verifyClaimPipeline 2026 "zz" ⟨[], 0, 0⟩ aiHi
      = aiTier "zz" ⟨[], 0, 0⟩ aiHi := rfl
  rw [he]
  norm_num [aiTier, aiHi, strOr]

theorem factCheckBranch_nil (claim : String) (ca : VMetadata) :
    factCheckBranch claim [] ca = none := by
  simp [factCheckBranch]

theorem calcConfidence_nil (rs : ℚ) (scores : List ℚ) :
    calculateVerificationConfidence [] rs scores = 0 := by
  simp [calculateVerificationConfidence]

theorem determineStatus_nil (conf : ℚ) (b : Bool) :
    determineVerificationStatus conf b [] = .UNVERIFIED := by
  simp [determineVerificationStatus]

theorem verifyFactual_nil (cy : ℕ) (claim : String) (rs : ℚ) (ca : VMetadata) :
    (verifyFactualClaim cy claim [] rs ca).status = .UNVERIFIED ∧
    (verifyFactualClaim cy claim [] rs ca).confidence = 0 := by
  unfold verifyFactualClaim
  simp [calcConfidence_nil, determineStatus_nil]

/-- C2 amended: the zero-evidence invariant holds for
calculateVerificationResult (not for the pipeline entry point): with an empty
evidence list and a zero aggregate reliability score the status is Unverified
and the confidence 0, whatever the claim and its analysis. -/
theorem C2_amended_empty_unverified (currentYear : ℕ) (claim : String)
    (totalSources : ℕ) (ca : VMetadata) :
    (calculateVerificationResult currentYear claim ⟨[], totalSources, 0⟩ ca).status
      = .UNVERIFIED ∧
    (calculateVerificationResult currentYear claim ⟨[], totalSources, 0⟩ ca).confidence
      = 0 := by
  by_cases hp : ca.isPredictiveClaim
  · simp only [calculateVerificationResult, factCheckBranch_nil, hp, if_true]
    exact ⟨rfl, rfl⟩
  · by_cases hb : (ca.categories.contains "biography" || isBiographicalClaim claim) = true
    · simp only [calculateVerificationResult, factCheckBranch_nil, hp, hb,
        Bool.false_eq_true, if_false, if_true]
      exact ⟨rfl, rfl⟩
    · by_cases hf : ca.isFactualClaim
      · simp only [calculateVerificationResult, factCheckBranch_nil, hp, hb, hf,
          Bool.false_eq_true, if_false, if_true]
        exact verifyFactual_nil currentYear claim 0 ca
      · simp only [calculateVerificationResult, factCheckBranch_nil, hp, hb, hf,
          Bool.false_eq_true, if_false]
        exact ⟨rfl, rfl⟩

/-! ## C3: the fact-check tier mapping and confidence -/

/-- C3 counterexample.  Fact-check evidence rated DISPUTED produces status
Disputed with confidence 0.95 — not the claimed 0.7. -/
theorem C3_counterexample :
    (verifyClaimPipeline 2026 "zz" ⟨[fcEv "Rating: DISPUTED"], 1, 0.85⟩ aiHi).status
      = .DISPUTED ∧
    (verifyClaimPipeline 2026 "zz" ⟨[fcEv "Rating: DISPUTED"], 1, 0.85⟩ aiHi).confidence
      = 0.95 := by
  refine ⟨by decide, rfl⟩

/-- C3 amended: when the Wikipedia current-event tier does not fire and some
evidence is flagged isFactChecker, the status is mapped TRUE→Verified,
FALSE→False, anything else→Disputed, and the confidence is 0.95 for all three
outcomes (0.7 is never used on this path). -/
theorem C3_amended_factcheck_tier (currentYear : ℕ) (claim : String)
    (er : EvidenceResult) (ai : AIInputs) (fce : Evidence)
    (hw : er.evidence.find? isWikipediaEvidence = none ∨
          isCurrentEventClaim currentYear claim = false)
    (hfc : er.evidence.find? (fun e => e.source.metadata.isFactChecker) = some fce) :
    (verifyClaimPipeline currentYear claim er ai).status =
      (if matchRating3 (lowerStr fce.content).data = some "TRUE" then .VERIFIED
       else if matchRating3 (lowerStr fce.content).data = some "FALSE" then .FALSE
       else .DISPUTED) ∧
    (verifyClaimPipeline currentYear claim er ai).confidence = 0.95 := by
  rcases hw with hw | hw
  · simp only [verifyClaimPipeline, hw, hfc]
    exact ⟨rfl, rfl⟩
  · cases hfind : er.evidence.find? isWikipediaEvidence with
    | none =>
        simp only [verifyClaimPipeline, hfind, hfc]
        exact ⟨rfl, rfl⟩
    | some w =>
        simp only [verifyClaimPipeline, hfind, hw, Bool.false_eq_true, if_false, hfc]
        exact ⟨rfl, rfl⟩

/-- C3 witness: a concrete FALSE-rated fact check decided by the tier. -/
theorem C3_witness :
    (verifyClaimPipeline 2026 "zz" ⟨[fcEv "Rating: FALSE"], 1, 0⟩ aiHi).status
      = .FALSE ∧
    (verifyClaimPipeline 2026 "zz" ⟨[fcEv "Rating: FALSE"], 1, 0⟩ aiHi).confidence
      = 0.95 := by
  have h := C3_amended_factcheck_tier 2026 "zz" ⟨[fcEv "Rating: FALSE"], 1, 0⟩ aiHi
    (fcEv "Rating: FALSE") (Or.inl rfl) rfl
  refine ⟨?_, h.2⟩
  rw [h.1]
  decide

/-! ## C4: the top-level catch handlers -/

/-- C4 counterexample.  Both catch handlers return Unverified at confidence 0
but leave metadata.error unset: the fault message is NOT carried in the
metadata. -/
theorem C4_counterexample :
    (pipelineCatchResult "c").metadata.error = none ∧
    (serviceCatchResult "c").metadata.error = none := by
  exact ⟨rfl, rfl⟩

/-- C4 amended: any exception caught at the pipeline or service boundary is
converted into a fixed result with status Unverified, confidence 0, empty
evidence and sources, and a generic explanation; the fault message is not
attached to the metadata (metadata.error stays none). -/
theorem C4_amended_catch_results (claim : String) :
    (pipelineCatchResult claim).status = .UNVERIFIED ∧
    (pipelineCatchResult claim).confidence = 0 ∧
    (pipelineCatchResult claim).evidence = [] ∧
    (pipelineCatchResult claim).metadata.error = none ∧
    (pipelineCatchResult claim).explanation = "Error during verification process" ∧
    (serviceCatchResult claim).status = .UNVERIFIED ∧
    (serviceCatchResult claim).confidence = 0 ∧
    (serviceCatchResult claim).evidence = [] ∧
    (serviceCatchResult claim).metadata.error = none ∧
    (serviceCatchResult claim).explanation =
      "An error occurred while verifying this claim." := by
  refine ⟨rfl, rfl, rfl, rfl, rfl, rfl, rfl, rfl, rfl, rfl⟩

/-! ## C6: the Tier-4 generic fallback thresholds -/

theorem distinctTypes_pos (evidence : List Evidence) (h : evidence ≠ []) :
    0 < distinctTypes evidence := by
  unfold distinctTypes
  rw [List.length_pos]
  intro hnil
  rw [List.dedup_eq_nil, List.map_eq_nil_iff] at hnil
  exact h hnil

/-- C6.  In the generic fallback of determineVerificationStatus (no
fact-check-flagged evidence, no Wikipedia reference evidence, at least one
evidence item) the status is Disputed exactly when the contradiction ratio is
strictly greater than 0.2, otherwise Verified when the confidence is at least
0.6 and Unverified below that. -/
theorem C6_tier4_status (conf : ℚ) (hc : Bool) (evidence : List Evidence)
    (h1 : evidence.find? (fun e => e.source.metadata.isFactChecker) = none)
    (h2 : evidence.find? isWikipediaEvidence = none)
    (h3 : evidence ≠ []) :
    determineVerificationStatus conf hc evidence =
      (if calculateContradictionRatio evidence > 0.2 then .DISPUTED
       else if conf ≥ 0.6 then .VERIFIED
       else .UNVERIFIED) := by
  unfold determineVerificationStatus
  rw [h1, h2]
  have hlen : ¬ (evidence.length < 1) := by
    have := List.length_pos.mpr h3
    omega
  have htypes : ¬ (distinctTypes evidence < 1) := by
    have := distinctTypes_pos evidence h3
    omega
  simp only [hlen, htypes, if_false]

/-- C6 witness (Scenario D): five items, exactly one contradictory, ratio
exactly 0.2 — not Disputed; confidence 0.7 → Verified. -/
theorem C6_witness :
    determineVerificationStatus 0.7 false
      [newsEv "1" "p" false, newsEv "2" "q" false, newsEv "3" "r" true,
       newsEv "4" "s" false, newsEv "5" "t" false] = .VERIFIED := by
  have h := C6_tier4_status 0.7 false
    [newsEv "1" "p" false, newsEv "2" "q" false, newsEv "3" "r" true,
     newsEv "4" "s" false, newsEv "5" "t" false]
    rfl rfl (List.cons_ne_nil _ _)
  rw [h]
  have hr : calculateContradictionRatio
      [newsEv "1" "p" false, newsEv "2" "q" false, newsEv "3" "r" true,
       newsEv "4" "s" false, newsEv "5" "t" false] = 1/5 := by
    norm_num [calculateContradictionRatio, countContradictions, newsEv]
  rw [hr]
  norm_num

/-! ## C7: the contradiction ratio -/

/-- C7 counterexample.  A verifyWithFactCheck result over one contradictory
evidence item reports metadata.contradictionRatio = 0 although the ratio of
contradictory items in its evidence list is 1. -/
theorem C7_counterexample :
    (verifyWithFactCheckOn "c" [contraFcEv]).metadata.contradictionRatio = 0 ∧
    calculateContradictionRatio ((verifyWithFactCheckOn "c" [contraFcEv]).evidence)
      = 1 := by
  constructor
  · rfl
  · have he : (verifyWithFactCheckOn "c" [contraFcEv]).evidence = [contraFcEv] := rfl
    rw [he]
    norm_num [calculateContradictionRatio, countContradictions, contraFcEv]

/-- C7 amended: the helper calculateContradictionRatio does compute
|contradictory| / |evidence| (0 on empty, 0 when none is contradictory, 1
when all are), but results do not always carry that value:
verifyWithFactCheck hard-codes metadata.contradictionRatio to 0.3 when
conflicting ratings are flagged and 0 otherwise. -/
theorem C7_amended_ratio (evidence : List Evidence) (claim : String) :
    calculateContradictionRatio evidence =
      (if evidence.length = 0 then 0
       else (countContradictions evidence : ℚ) / evidence.length) ∧
    ((∀ e ∈ evidence, e.metadata.isContradictory = false) →
      calculateContradictionRatio evidence = 0) ∧
    (evidence ≠ [] → (∀ e ∈ evidence, e.metadata.isContradictory = true) →
      calculateContradictionRatio evidence = 1) ∧
    (evidence ≠ [] →
      (verifyWithFactCheckOn claim evidence).metadata.contradictionRatio =
        (if evidence.any (fun e => hasConflictsGuard e.metadata) then 0.3 else 0)) := by
  refine ⟨?_, ?_, ?_, ?_⟩
  · unfold calculateContradictionRatio
    rcases evidence with _ | ⟨e, l⟩ <;> simp
  · intro hall
    unfold calculateContradictionRatio countContradictions
    have : evidence.filter (fun e => e.metadata.isContradictory) = [] := by
      rw [List.filter_eq_nil_iff]
      intro e he
      simp [hall e he]
    rw [this]
    simp
  · intro hne hall
    unfold calculateContradictionRatio countContradictions
    have hfil : evidence.filter (fun e => e.metadata.isContradictory) = evidence := by
      rw [List.filter_eq_self]
      intro e he
      simp [hall e he]
    rw [hfil]
    have hlen : (0 : ℚ) < evidence.length := by
      have := List.length_pos.mpr hne
      exact_mod_cast this
    simp only [List.length_pos.mpr hne, if_pos]
    · field_simp
  · intro hne
    rcases evidence with _ | ⟨e0, rest⟩
    · exact absurd rfl hne
    · rfl

/-- C7 witness: concrete instantiations of the amended statement. -/
theorem C7_witness :
    calculateContradictionRatio [contraFcEv] = 1 ∧
    (verifyWithFactCheckOn "c" [newsEv "1" "p" false]).metadata.contradictionRatio
      = 0 := by
  have h1 := (C7_amended_ratio [contraFcEv] "c").2.2.1 (List.cons_ne_nil _ _) (by decide)
  have h2 := (C7_amended_ratio [newsEv "1" "p" false] "c").2.2.2 (List.cons_ne_nil _ _)
  refine ⟨h1, ?_⟩
  rw [h2]
  rfl

/-! ## C9: biographical guard of the predictive classifier -/

/-- Modelled from the spec: the intended birth-date biographical pattern
`born\s+\w+\s+\d{1,2},\s+\d{4}` (the source writes it with doubled
backslashes inside a regex literal, which changes its meaning; the spec
describes a birth-date guard such as this). -/
def bornDateSpecPat : Rgx :=
  catL [lit "born", rplus wsR, rplus wordR, rplus wsR, repRange digitR 1 2,
        chr ',', rplus wsR, repN digitR 4]

/-- C9 evaluation at the failing input.  The claim text carries a textbook
birth-date phrase (it matches the spec-intended pattern) and the predictive
keyword "will"; the code still classifies it as predictive because its
biographical regexes, written with doubled backslashes, only match text
containing literal backslash characters. -/
theorem C9_code_eval :
    rgxSearch bornDateSpecPat
      (lowerStr "John Smith, born May 1, 1990, will star in a new film") = true ∧
    isBiographicalClaim
      (lowerStr "John Smith, born May 1, 1990, will star in a new film") = false ∧
    (analyzeClaim "John Smith, born May 1, 1990, will star in a new film").isPredictiveClaim
      = true ∧
    isBiographicalClaim "born\\ssss\\www\\sss\\dd,\\ss\\dddd" = true := by
  refine ⟨by decide, by decide, by decide, by decide⟩

/-! ## C10: single-item evidence lists from the deciding tiers -/

/-- C10.  Whenever the pipeline decides a claim in the Wikipedia
current-event tier or in the fact-check tier, the returned result carries
exactly the single deciding evidence item and its source; every other
gathered item is omitted. -/
theorem C10_deciding_tiers_single_evidence :
    (∀ (cy : ℕ) (claim : String) (er : EvidenceResult) (ai : AIInputs) (w : Evidence),
      er.evidence.find? isWikipediaEvidence = some w →
      isCurrentEventClaim cy claim = true →
      (verifyClaimPipeline cy claim er ai).evidence = [w] ∧
      (verifyClaimPipeline cy claim er ai).sources = [w.source]) ∧
    (∀ (cy : ℕ) (claim : String) (er : EvidenceResult) (ai : AIInputs) (f : Evidence),
      (er.evidence.find? isWikipediaEvidence = none ∨
       isCurrentEventClaim cy claim = false) →
      er.evidence.find? (fun e => e.source.metadata.isFactChecker) = some f →
      (verifyClaimPipeline cy claim er ai).evidence = [f] ∧
      (verifyClaimPipeline cy claim er ai).sources = [f.source]) := by
  constructor
  · intro cy claim er ai w hw hce
    simp only [verifyClaimPipeline, hw, hce, if_true]
    exact ⟨rfl, rfl⟩
  · intro cy claim er ai f hw hfc
    rcases hw with hw | hw
    · simp only [verifyClaimPipeline, hw, hfc]
      exact ⟨rfl, rfl⟩
    · cases hfind : er.evidence.find? isWikipediaEvidence with
      | none =>
          simp only [verifyClaimPipeline, hfind, hfc]
          exact ⟨rfl, rfl⟩
      | some w =>
          simp only [verifyClaimPipeline, hfind, hw, Bool.false_eq_true, if_false, hfc]
          exact ⟨rfl, rfl⟩

/-- C10 witness: both tiers at concrete inputs with a second gathered item
that is dropped from the result. -/
theorem C10_witness :
    (verifyClaimPipeline 2026 "Is Donald Trump the president of USA?"
      ⟨[wikiEv "donald trump is the 47th president", newsEv "1" "other" false], 2, 0.9⟩
      aiHi).evidence = [wikiEv "donald trump is the 47th president"] ∧
    (verifyClaimPipeline 2026 "zz"
      ⟨[newsEv "1" "other" false, fcEv "Rating: FALSE"], 2, 0.9⟩ aiHi).evidence
      = [fcEv "Rating: FALSE"] := by
  have h1 := (C10_deciding_tiers_single_evidence.1 2026
    "Is Donald Trump the president of USA?"
    ⟨[wikiEv "donald trump is the 47th president", newsEv "1" "other" false], 2, 0.9⟩
    aiHi (wikiEv "donald trump is the 47th president") rfl (by decide)).1
  have h2 := (C10_deciding_tiers_single_evidence.2 2026 "zz"
    ⟨[newsEv "1" "other" false, fcEv "Rating: FALSE"], 2, 0.9⟩ aiHi
    (fcEv "Rating: FALSE") (Or.inl rfl) rfl).1
  exact ⟨h1, h2⟩

/-! ## C8: the deduplication step keeps the LAST duplicate, not the first -/

/-- C8 counterexample.  Two items share a content; the output keeps the
second (Map.set overwrote the stored value), not the first as claimed. -/
theorem C8_counterexample :
    dedupByContent [dupA, dupB] = [dupB] ∧
    dedupByContent [dupA, dupB] ≠ [dupA] := by
  constructor
  · rfl
  · intro h
    have h3 : ([dupB] : List Evidence) = [dupA] :=
      (rfl : dedupByContent [dupA, dupB] = [dupB]).symm.trans h
    have h2 : dupB = dupA := by injection h3
    have h5 := congrArg (fun e => e.id) h2
    simp [dupA, dupB] at h5

/-- The element updated by `replBy` keeps its content (its key). -/
theorem replBy_content (e x : Evidence) : (replBy e x).content = x.content := by
  unfold replBy
  split
  · rename_i h
    exact h.symm
  · rfl

theorem any_map_replBy (m : List Evidence) (e : Evidence) (c : String) :
    (m.map (replBy e)).any (fun x => x.content = c) =
      m.any (fun x => x.content = c) := by
  induction m with
  | nil => rfl
  | cons a t ih => simp only [List.map_cons, List.any_cons, ih, replBy_content]

/-- The accumulated update of an element by the whole list. -/
def updBy (l : List Evidence) (x : Evidence) : Evidence := l.foldl (lastStep x) x

theorem foldl_lastStep_congr (l : List Evidence) (y y' : Evidence)
    (h : y.content = y'.content) :
    ∀ acc, l.foldl (lastStep y) acc = l.foldl (lastStep y') acc := by
  induction l with
  | nil => intro acc; rfl
  | cons a t ih =>
      intro acc
      simp only [List.foldl_cons]
      rw [show lastStep y acc a = lastStep y' acc a from by unfold lastStep; rw [h]]
      exact ih _

theorem foldl_lastStep_filter (y : Evidence) (q : Evidence → Bool)
    (l : List Evidence) (h : ∀ x ∈ l, q x = false → x.content ≠ y.content) :
    ∀ acc, (l.filter q).foldl (lastStep y) acc = l.foldl (lastStep y) acc := by
  induction l with
  | nil => intro acc; rfl
  | cons a t ih =>
      intro acc
      by_cases hq : q a
      · rw [List.filter_cons_of_pos hq]
        simp only [List.foldl_cons]
        exact ih (fun x hx hf => h x (List.mem_cons_of_mem _ hx) hf) _
      · rw [List.filter_cons_of_neg hq]
        have ha : a.content ≠ y.content :=
          h a (List.mem_cons_self _ _) (Bool.eq_false_iff.mpr hq)
        simp only [List.foldl_cons]
        rw [show lastStep y acc a = acc from by unfold lastStep; simp [ha]]
        exact ih (fun x hx hf => h x (List.mem_cons_of_mem _ hx) hf) _

theorem updBy_cons (e : Evidence) (l : List Evidence) (x : Evidence) :
    updBy (e :: l) x = updBy l (replBy e x) := by
  unfold updBy
  simp only [List.foldl_cons]
  by_cases h : x.content = e.content
  · rw [show lastStep x x e = e from by unfold lastStep; simp [h.symm]]
    rw [show replBy e x = e from by unfold replBy; simp [h]]
    exact foldl_lastStep_congr l x e h e
  · have hne : ¬ e.content = x.content := fun hc => h hc.symm
    rw [show lastStep x x e = x from by unfold lastStep; simp [hne]]
    rw [show replBy e x = x from by unfold replBy; simp [h]]

theorem updBy_cons_of_ne (e : Evidence) (l : List Evidence) (x : Evidence)
    (h : ¬ x.content = e.content) : updBy (e :: l) x = updBy l x := by
  rw [updBy_cons]
  rw [show replBy e x = x from by unfold replBy; simp [h]]

/-- Characterisation of the Map-building fold for an arbitrary accumulator:
the stored entries get updated to the last matching input item, and the new
contents are appended as keepLastByContent prescribes. -/
theorem foldl_mapSet_spec (l : List Evidence) : ∀ m : List Evidence,
    l.foldl mapSetByContent m =
      m.map (updBy l) ++
      keepLastByContent
        (l.filter (fun e => !(m.any (fun x => x.content = e.content)))) := by
  induction l with
  | nil =>
      intro m
      simp only [List.foldl_nil, List.filter_nil, keepLastByContent,
        List.append_nil]
      have : ∀ x ∈ m, updBy [] x = x := fun x _ => rfl
      rw [List.map_congr_left this, List.map_id']
  | cons e l ih =>
      intro m
      rw [List.foldl_cons]
      rw [ih (mapSetByContent m e)]
      unfold mapSetByContent
      by_cases hm : m.any (fun x => x.content = e.content)
      · rw [if_pos hm]
        -- the key was present: the stored entry is overwritten in place
        have hmap : (m.map (replBy e)).map (updBy l) = m.map (updBy (e :: l)) := by
          rw [List.map_map]
          exact List.map_congr_left (fun x _ => (updBy_cons e l x).symm)
        have hfil :
            l.filter (fun y => !((m.map (replBy e)).any (fun x => x.content = y.content))) =
            (e :: l).filter (fun y => !(m.any (fun x => x.content = y.content))) := by
          rw [List.filter_cons_of_neg (by simp [hm])]
          exact List.filter_congr (fun y _ => by rw [any_map_replBy])
        rw [hmap, hfil]
      · rw [if_neg hm]
        -- a fresh key: appended at the end of the map
        have hnotin : ∀ x ∈ m, ¬ x.content = e.content := by
          intro x hx
          have := List.any_eq_false.mp (Bool.eq_false_iff.mpr hm) x hx
          simpa using this
        have hmap : m.map (updBy (e :: l)) = m.map (updBy l) :=
          List.map_congr_left (fun x hx => updBy_cons_of_ne e l x (hnotin x hx))
        have hconsfil :
            (e :: l).filter (fun y => !(m.any (fun x => x.content = y.content))) =
            e :: l.filter (fun y => !(m.any (fun x => x.content = y.content))) :=
          List.filter_cons_of_pos (by simp [hm])
        rw [hmap, hconsfil]
        rw [keepLastByContent]
        have hhead :
            lastWithContent e
              (l.filter (fun y => !(m.any (fun x => x.content = y.content)))) =
            updBy l e := by
          unfold lastWithContent updBy
          refine foldl_lastStep_filter e _ l ?_ e
          intro x hx hf
          simp only [Bool.not_eq_false'] at hf
          obtain ⟨z, hz, hzc⟩ := List.any_eq_true.mp hf
          intro hxe
          exact hnotin z hz (by rw [of_decide_eq_true hzc, hxe])
        have htail :
            (l.filter (fun y => !(m.any (fun x => x.content = y.content)))).filter
              (fun x => x.content ≠ e.content) =
            l.filter
              (fun y => !((m ++ [e]).any (fun x => x.content = y.content))) := by
          rw [List.filter_filter]
          refine List.filter_congr (fun y _ => ?_)
          simp only [List.any_append, List.any_cons, List.any_nil, Bool.or_false,
            Bool.not_or]
          by_cases hye : y.content = e.content
          · simp [hye]
          · have hye2 : ¬ e.content = y.content := fun hc => hye hc.symm
            simp [hye, hye2]
        rw [hhead, htail]
        simp [List.map_append, List.append_assoc, updBy]

/-- C8 amended: the deduplication keeps, for each distinct content in order
of first appearance, the LAST input item carrying that content (the first
occurrence fixes the position, the last one supplies the kept item). -/
theorem C8_amended_dedup_keeps_last (l : List Evidence) :
    dedupByContent l = keepLastByContent l := by
  have h := foldl_mapSet_spec l []
  simpa [dedupByContent] using h

end FNS
